import Mathlib

/-!
Verification development for the ZKTeco attendance-terminal server.

The definitions below are a shallow embedding of the TypeScript sources:

* `src/server/services/ZKTecoService.ts` — device registry, socket lifecycle,
  data parsing, attendance-kind classification, sendCommand;
* `src/server/index.ts` (AttendanceController) — the live `attendanceRecord`
  listener that persists and broadcasts incoming records;
* `src/server/controllers/EmployeeController.ts` — the file-import duplicate
  check (`importAttendance`);
* `src/server/services/RealtimeService.ts` — the WebSocket broadcast hub.

JavaScript `Date` values are modelled as natural numbers of milliseconds
since the epoch, `Buffer`s as lists of byte values, and the mutable `Map`s
as association lists with the same set/delete semantics.
-/

set_option linter.unusedVariables false

namespace ZKTeco

/-! ### Attendance data model (ZKTecoService.ts, interfaces) -/

/-- The eventKind type of an attendance record (`AttendanceRecord['type']`). -/
inductive AttType
  | checkIn
  | checkOut
  | breakStart
  | breakEnd
deriving DecidableEq, Repr

/-- The capture method of an attendance record. -/
inductive Method
  | fingerprint
  | face
  | card
  | pin
deriving DecidableEq, Repr

/-- The canonical attendance record produced by the device layer
(interface AttendanceRecord in ZKTecoService.ts). -/
structure AttendanceRecord where
  userId : String
  timestamp : Nat
  type : AttType
  method : Method
  deviceId : String
deriving DecidableEq, Repr

/-- Result of ZKTecoService.parseZKData: the parsed notification object. -/
structure ParsedData where
  dtype : String
  userId : String
  timestamp : Nat
  method : Method
  verifyMode : Nat
deriving DecidableEq, Repr

/-- Date.prototype.getHours on a millisecond timestamp (server clock in UTC). -/
def hoursOf (t : Nat) : Nat :=
  (t / 3600000) % 24

/-- Buffer.readUInt16LE. -/
def readUInt16LE (data : List Nat) (off : Nat) : Nat :=
  (data.getD off 0) % 256 + ((data.getD (off + 1) 0) % 256) * 256

/-- ZKTecoService.parseZKData: rejects buffers shorter than 8 bytes with the
error 'Invalid data length'; otherwise reads the four header words and returns
the mock parsed notification (type 'attendance', userId '12345', timestamp
taken from a fresh `new Date()` — the `now` argument — method fingerprint,
verifyMode 1). -/
def parseZKData (data : List Nat) (now : Nat) : Except String ParsedData :=
  if data.length < 8 then
    .error "Invalid data length"
  else
    let command := readUInt16LE data 0
    let checksum := readUInt16LE data 2
    let sessionId := readUInt16LE data 4
    let replyId := readUInt16LE data 6
    .ok { dtype := "attendance", userId := "12345", timestamp := now,
          method := .fingerprint, verifyMode := 1 }

/-- ZKTecoService.determineAttendanceType: the `data` parameter is accepted but
never inspected by the source function; the result depends only on
`new Date().getHours()` — the wall-clock hour at the moment of classification,
passed here as `now` (a second, separate clock read from the one taken inside
parseZKData). -/
def determineAttendanceType (data : ParsedData) (now : Nat) : AttType :=
  let hour := hoursOf now
  if hour < 12 then .checkIn
  else if hour > 17 then .checkOut
  else .breakStart

/-- ZKTecoService.handleDeviceData for one inbound buffer: parse, and when the
parsed type is 'attendance' build and emit an AttendanceRecord; a parse error
is caught (logged) and produces no record; a 'heartbeat' only refreshes
lastSeen and produces no record.  `parseNow` and `classifyNow` are the two
distinct `new Date()` reads the source performs (one inside parseZKData for the
record timestamp, one inside determineAttendanceType for the classifier). -/
def handleDeviceData (deviceId : String) (data : List Nat)
    (parseNow classifyNow : Nat) : Option AttendanceRecord :=
  match parseZKData data parseNow with
  | .error _ => none
  | .ok parsedData =>
    if parsedData.dtype = "attendance" then
      some { userId := parsedData.userId,
             timestamp := parsedData.timestamp,
             type := determineAttendanceType parsedData classifyNow,
             method := parsedData.method,
             deviceId := deviceId }
    else
      none

/-- The per-socket dispatch loop: each 'data' event is handled independently by
handleDeviceData; the records emitted are the collected results.  Each entry
carries the buffer and the two clock reads taken while handling it. -/
def processBuffers (deviceId : String)
    (bufs : List (List Nat × Nat × Nat)) : List AttendanceRecord :=
  bufs.filterMap (fun b => handleDeviceData deviceId b.1 b.2.1 b.2.2)

/-! ### Live ingestion listener (index.ts, AttendanceController.setupEventListeners)
and file-import duplicate check (EmployeeController.importAttendance) -/

/-- The row written to the attendance_records table
(DatabaseService.createAttendanceRecord argument, as built by the listener). -/
structure DbAttendanceRecord where
  employeeId : String
  employeeName : String
  timestamp : Nat
  type : AttType
  method : Method
  deviceId : String
  location : String
  status : String
deriving DecidableEq, Repr

/-- AttendanceController.getDeviceLocation: the device's ip from the registry,
or 'Unknown Location'.  `devices` maps deviceId to ip. -/
def getDeviceLocation (devices : List (String × String)) (deviceId : String) :
    String :=
  match (devices.find? (fun p => p.1 == deviceId)).map Prod.snd with
  | some ip => ip
  | none => "Unknown Location"

/-- The attendanceRecord listener body, up to the persistence call: look up the
employee name (or 'Unknown Employee'), and assemble the row exactly as the
listener does.  `employees` maps employeeId to name. -/
def buildDbRecord (employees devices : List (String × String))
    (r : AttendanceRecord) : DbAttendanceRecord :=
  { employeeId := r.userId,
    employeeName :=
      ((employees.find? (fun p => p.1 == r.userId)).map Prod.snd).getD
        "Unknown Employee",
    timestamp := r.timestamp,
    type := r.type,
    method := r.method,
    deviceId := r.deviceId,
    location := getDeviceLocation devices r.deviceId,
    status := "success" }

/-- Observable effects of running the attendanceRecord listener. -/
structure ListenerResult where
  persistAttempts : Nat
  persisted : List DbAttendanceRecord
  broadcastRecords : List DbAttendanceRecord
  systemAlerts : Nat
  errorsLogged : Nat
deriving DecidableEq, Repr

/-- One firing of the attendanceRecord listener (index.ts lines 123-149) for a
single incoming record.  `persistOk` models whether
dbService.createAttendanceRecord succeeds on the assembled row.  On success the
row is persisted and then broadcast via broadcastAttendanceRecord; on failure
the catch block only logs the error — the listener contains no retry loop and
never calls broadcastSystemAlert. -/
def attendanceListenerStep (employees devices : List (String × String))
    (persistOk : DbAttendanceRecord → Bool) (r : AttendanceRecord) :
    ListenerResult :=
  let row := buildDbRecord employees devices r
  if persistOk row then
    { persistAttempts := 1, persisted := [row], broadcastRecords := [row],
      systemAlerts := 0, errorsLogged := 0 }
  else
    { persistAttempts := 1, persisted := [], broadcastRecords := [],
      systemAlerts := 0, errorsLogged := 1 }

/-- Sequential composition of listener results. -/
def combineResults (a b : ListenerResult) : ListenerResult :=
  { persistAttempts := a.persistAttempts + b.persistAttempts,
    persisted := a.persisted ++ b.persisted,
    broadcastRecords := a.broadcastRecords ++ b.broadcastRecords,
    systemAlerts := a.systemAlerts + b.systemAlerts,
    errorsLogged := a.errorsLogged + b.errorsLogged }

/-- The listener run over a stream of incoming records: each notification is
handled independently (there is no duplicate check anywhere on this path). -/
def attendanceListenerRun (employees devices : List (String × String))
    (persistOk : DbAttendanceRecord → Bool) :
    List AttendanceRecord → ListenerResult
  | [] =>
    { persistAttempts := 0, persisted := [], broadcastRecords := [],
      systemAlerts := 0, errorsLogged := 0 }
  | r :: rs =>
    combineResults (attendanceListenerStep employees devices persistOk r)
      (attendanceListenerRun employees devices persistOk rs)

/-- A row as seen by the import duplicate check (only the fields it reads). -/
structure ImportRecord where
  employeeId : String
  timestamp : Nat
deriving DecidableEq, Repr

/-- Math.abs of a timestamp difference, in milliseconds. -/
def natDist (x y : Nat) : Nat := max x y - min x y

/-- The records returned by getAttendanceRecords for the duplicate check in
EmployeeController.importAttendance: the query filters on employeeId and on
startDate = endDate = the candidate's own timestamp, i.e. timestamp ≥ t and
timestamp ≤ t (ISO-8601 strings compare lexicographically, which for this
fixed-width format is chronological order, modelled on Nat).  deviceId is not
part of the filter. -/
def existingFor (db : List ImportRecord) (a : ImportRecord) :
    List ImportRecord :=
  db.filter (fun r =>
    r.employeeId == a.employeeId &&
    decide (a.timestamp ≤ r.timestamp) && decide (r.timestamp ≤ a.timestamp))

/-- The isDuplicate test of importAttendance: some returned record lies within
60 000 ms of the candidate. -/
def isDuplicateImport (db : List ImportRecord) (a : ImportRecord) : Bool :=
  (existingFor db a).any (fun r => natDist r.timestamp a.timestamp < 60000)

/-- One iteration of the import loop: a duplicate is counted and skipped,
otherwise the record is persisted.  State is (db, imported, duplicates). -/
def importStep (st : List ImportRecord × Nat × Nat) (a : ImportRecord) :
    List ImportRecord × Nat × Nat :=
  if isDuplicateImport st.1 a then
    (st.1, st.2.1, st.2.2 + 1)
  else
    (st.1 ++ [a], st.2.1 + 1, st.2.2)

/-- EmployeeController.importAttendance over a parsed batch. -/
def importAttendanceRun (db : List ImportRecord) (batch : List ImportRecord) :
    List ImportRecord × Nat × Nat :=
  batch.foldl importStep (db, 0, 0)

/-! ### Broadcast hub (RealtimeService.ts) -/

/-- WebSocket readyState values. -/
inductive ReadyState
  | CONNECTING
  | OPEN
  | CLOSING
  | CLOSED
deriving DecidableEq, Repr

/-- A registered subscriber connection: an identity plus its readyState. -/
structure Client where
  cid : Nat
  readyState : ReadyState
deriving DecidableEq, Repr

/-- RealtimeService.broadcast: JSON.stringify the message once, then for each
registered client send the serialized string when readyState is OPEN and
otherwise delete the client from the set.  Returns the (clientId, payload)
sends performed and the surviving client set, in iteration order.  The source
loop performs no operation that can throw to the caller: send is only invoked
on OPEN sockets (where ws buffers asynchronously) and set deletion is total. -/
def broadcast (msg : String) : List Client → List (Nat × String) × List Client
  | [] => ([], [])
  | c :: rest =>
    let r := broadcast msg rest
    if c.readyState = .OPEN then ((c.cid, msg) :: r.1, c :: r.2) else r

/-! ### Device registry and socket lifecycle (ZKTecoService.ts)

The service keeps two process-wide mutable Maps — devices and connections —
plus one net.Socket per established connection.  The async callback style is
embedded as a step function over explicit actions: each action is one callback
or public-method invocation the Node event loop can run. -/

/-- JS Map.set on an association list: replace the value of an existing key,
otherwise append a fresh entry. -/
def mapSet {α : Type} (m : List (String × α)) (k : String) (v : α) :
    List (String × α) :=
  if m.any (fun p => p.1 == k) then
    m.map (fun p => if p.1 == k then (k, v) else p)
  else
    m ++ [(k, v)]

/-- JS Map.delete. -/
def mapDelete {α : Type} (m : List (String × α)) (k : String) :
    List (String × α) :=
  m.filter (fun p => p.1 != k)

/-- JS Map.get. -/
def mapGet {α : Type} (m : List (String × α)) (k : String) : Option α :=
  (m.find? (fun p => p.1 == k)).map Prod.snd

/-- Status events emitted by ZKTecoService. -/
inductive StatusEvent
  | deviceConnected (id : String)
  | deviceDisconnected (id : String)
  | deviceError (id : String)
deriving DecidableEq, Repr

/-- The observable state of ZKTecoService.  `devices` maps a device id to its
isConnected flag; `connections` is the deviceId → socket Map; `live` holds
every socket that completed its connect callback and has not been destroyed or
closed (Map.set overwrites an entry but closes nothing, so a socket can be
live without being in the Map); `destroyed` holds sockets destroyed whose
'close' event has not yet been dispatched; `reconnectTimers` holds the pending
5-second setTimeout reconnects created by the close handler; `pending` holds
(deviceId, caller) pairs awaiting a sendCommand response. -/
structure ServiceState where
  devices : List (String × Bool)
  connections : List (String × Nat)
  live : List (Nat × String)
  destroyed : List (Nat × String)
  reconnectTimers : List String
  pending : List (String × Nat)
  events : List StatusEvent
  nextSocketId : Nat
deriving DecidableEq, Repr

/-- The empty service at construction time. -/
def initState : ServiceState :=
  { devices := [], connections := [], live := [], destroyed := [],
    reconnectTimers := [], pending := [], events := [], nextSocketId := 0 }

/-- One callback or public-method invocation on the service:

* addDevice — the public addDevice(config) route (POST /api/devices), which
  registers the device and calls connectToDevice; no guard rejects an id that
  is already registered or already connected;
* connectOk / connectFail — the socket.connect success callback or the
  error/timeout callback of some connectToDevice call (connectToDevice is
  public and is also invoked by addDevice and by the reconnect timer);
* cmdStart — a sendCommand call on a connected device registering a waiter;
* socketClose — the 'close' event of socket sid, handled by the close handler
  that setupSocketHandlers installed for device id;
* reconnectFire — a scheduled reconnect setTimeout fires and calls
  connectToDevice (whose outcome arrives as a later connectOk/connectFail);
* disconnectOne / disconnectAll — the public disconnect(deviceId?) method. -/
inductive Act
  | addDevice (id : String)
  | connectOk (id : String)
  | connectFail (id : String)
  | cmdStart (id : String) (caller : Nat)
  | socketClose (id : String) (sid : Nat)
  | reconnectFire (id : String)
  | disconnectOne (id : String)
  | disconnectAll
deriving DecidableEq, Repr

/-- The body of disconnect(deviceId): look up the Map entry and destroy that
socket.  Destruction only moves the socket out of `live`; the Map entry, the
isConnected flag and the close-handler work all happen later, when the 'close'
event is dispatched.  Destroying an already-destroyed socket is a no-op. -/
def disconnectDevice (s : ServiceState) (id : String) : ServiceState :=
  match mapGet s.connections id with
  | some sid =>
    if (sid, id) ∈ s.live then
      { s with live := s.live.filter (fun p => p ≠ (sid, id)),
               destroyed := s.destroyed ++ [(sid, id)] }
    else s
  | none => s

/-- The transition function.  Each branch is the corresponding handler body in
ZKTecoService.ts; an action whose enabling condition does not hold (for
example a close event for a socket that does not exist) leaves the state
unchanged. -/
def step (s : ServiceState) : Act → ServiceState
  | .addDevice id =>
    { s with devices := mapSet s.devices id false }
  | .connectOk id =>
    if (mapGet s.devices id).isSome then
      { s with devices := mapSet s.devices id true,
               connections := mapSet s.connections id s.nextSocketId,
               live := (s.nextSocketId, id) :: s.live,
               events := s.events ++ [.deviceConnected id],
               nextSocketId := s.nextSocketId + 1 }
    else s
  | .connectFail id =>
    if (mapGet s.devices id).isSome then
      { s with devices := mapSet s.devices id false,
               events := s.events ++ [.deviceError id] }
    else s
  | .cmdStart id caller =>
    if (mapGet s.connections id).isSome ∧ (id, caller) ∉ s.pending then
      { s with pending := s.pending ++ [(id, caller)] }
    else s
  | .socketClose id sid =>
    if (sid, id) ∈ s.live ∨ (sid, id) ∈ s.destroyed then
      { s with devices := mapSet s.devices id false,
               connections := mapDelete s.connections id,
               live := s.live.filter (fun p => p ≠ (sid, id)),
               destroyed := s.destroyed.filter (fun p => p ≠ (sid, id)),
               events := s.events ++ [.deviceDisconnected id],
               reconnectTimers := s.reconnectTimers ++ [id] }
    else s
  | .reconnectFire id =>
    if id ∈ s.reconnectTimers then
      { s with reconnectTimers := s.reconnectTimers.erase id }
    else s
  | .disconnectOne id => disconnectDevice s id
  | .disconnectAll =>
    (s.connections.map Prod.fst).foldl disconnectDevice s

/-- Run a sequence of actions from the freshly constructed service. -/
def runActs (acts : List Act) : ServiceState :=
  acts.foldl step initState

/-- Number of live (established, not destroyed, not closed) sockets whose
handlers belong to device id. -/
def liveCount (s : ServiceState) (id : String) : Nat :=
  (s.live.filter (fun p => p.2 == id)).length

/-! ### sendCommand (ZKTecoService.sendCommand) -/

/-- Errors a sendCommand caller can observe. -/
inductive CmdError
  | deviceNotConnected
  | commandTimeout
deriving DecidableEq, Repr

instance {ε α : Type} [DecidableEq ε] [DecidableEq α] :
    DecidableEq (Except ε α) := fun a b =>
  match a, b with
  | .error x, .error y =>
    if h : x = y then .isTrue (by rw [h])
    else .isFalse (by intro hc; cases hc; exact h rfl)
  | .error _, .ok _ => .isFalse (by intro hc; cases hc)
  | .ok _, .error _ => .isFalse (by intro hc; cases hc)
  | .ok x, .ok y =>
    if h : x = y then .isTrue (by rw [h])
    else .isFalse (by intro hc; cases hc; exact h rfl)

/-- Outcome of one sendCommand call: the bytes written to the socket, if any,
and the settled promise. -/
structure SendOutcome where
  written : Option (List Nat)
  result : Except CmdError (List Nat)
deriving DecidableEq, Repr

/-- The socket.once('data') listener registered by sendCommand: it retains the
first data event delivered and ignores the rest. -/
def onceFirst (frames : List (List Nat)) : Option (List Nat) :=
  frames.foldl
    (fun acc f =>
      match acc with
      | some r => some r
      | none => some f)
    none

/-- ZKTecoService.sendCommand: throws 'Device not connected' when the
connections Map has no socket; otherwise writes the caller's command buffer
unchanged (socket.write(command) — no correlation id is allocated or framed
in), arms a 5-second timer, and settles with whatever the once-listener caught
first.  `frames` lists every data event the socket delivers before the timer
fires, in order — responses and unsolicited notifications alike, sendCommand
cannot tell them apart. -/
def sendCommand (connected : Bool) (command : List Nat)
    (frames : List (List Nat)) : SendOutcome :=
  if connected then
    match onceFirst frames with
    | some f => { written := some command, result := .ok f }
    | none => { written := some command, result := .error .commandTimeout }
  else
    { written := none, result := .error .deviceNotConnected }

end ZKTeco

namespace ZKTeco

/-! ### Claim C7 and C10 theorems -/

/-- C7: a raw buffer shorter than 8 bytes fails parsing ('Invalid data
length'), the failure is caught inside handleDeviceData (logged, no record,
no exception escapes), and every subsequent buffer on the same connection is
still processed normally. -/
theorem short_buffer_dropped_stream_continues
    (d : String) (b : List Nat) (tp tc : Nat) (h : b.length < 8)
    (rest : List (List Nat × Nat × Nat)) :
    handleDeviceData d b tp tc = none ∧
    processBuffers d ((b, tp, tc) :: rest) = processBuffers d rest := by
  have hp : parseZKData b tp = .error "Invalid data length" := by
    simp [parseZKData, h]
  constructor
  · simp [handleDeviceData, hp]
  · simp [processBuffers, handleDeviceData, hp]

theorem short_buffer_dropped_stream_continues_witness :
    handleDeviceData "ZK001" [0, 0, 0] 0 0 = none ∧
    processBuffers "ZK001"
        [([0, 0, 0], 0, 0), ([0, 0, 0, 0, 0, 0, 0, 0], 100, 100)] =
      processBuffers "ZK001" [([0, 0, 0, 0, 0, 0, 0, 0], 100, 100)] :=
  short_buffer_dropped_stream_continues "ZK001" [0, 0, 0] 0 0 (by decide)
    [([0, 0, 0, 0, 0, 0, 0, 0], 100, 100)]

/-- C10: determineAttendanceType only ever returns check-in, check-out or
break-start, so no record emitted by the live device-notification path has
eventKind break-end. -/
theorem live_path_never_break_end :
    (∀ dat now, determineAttendanceType dat now ≠ .breakEnd) ∧
    (∀ d b tp tc r, handleDeviceData d b tp tc = some r →
      r.type ≠ .breakEnd) := by
  have hd : ∀ dat now, determineAttendanceType dat now ≠ .breakEnd := by
    intro dat now
    unfold determineAttendanceType
    by_cases h1 : hoursOf now < 12 <;> by_cases h2 : hoursOf now > 17 <;>
      simp [h1, h2]
  refine ⟨hd, ?_⟩
  intro d b tp tc r hr
  unfold handleDeviceData at hr
  cases hp : parseZKData b tp with
  | error e => rw [hp] at hr; exact absurd hr (by simp)
  | ok p =>
    rw [hp] at hr
    by_cases hty : p.dtype = "attendance"
    · simp [hty] at hr
      have := hd p tc
      rw [← hr]
      simpa using this
    · simp [hty] at hr

theorem live_path_never_break_end_witness :
    ({ userId := "12345", timestamp := 0, type := .checkIn,
       method := .fingerprint, deviceId := "ZK001" } :
        AttendanceRecord).type ≠ .breakEnd :=
  live_path_never_break_end.2 "ZK001" [0, 0, 0, 0, 0, 0, 0, 0] 0 0
    { userId := "12345", timestamp := 0, type := .checkIn,
      method := .fingerprint, deviceId := "ZK001" } (by decide)

/-! ### Claim C6 theorems -/

/-- C6 counterexample: the record built for a buffer parsed at 11:59:59.999
(so its own stored timestamp has clock hour 11, strictly before 12) is
classified one millisecond later, at 12:00:00.000, and therefore gets kind
break-start — not the check-in that thresholds on the event's own timestamp
would dictate.  The classifier re-reads the wall clock instead of using the
event's device-reported timestamp (and ignores the parsed data entirely, so
no device-reported flag can take precedence). -/
theorem morning_timestamp_classified_break_start :
    handleDeviceData "ZK001" [0, 0, 0, 0, 0, 0, 0, 0] 43199999 43200000 =
      some { userId := "12345", timestamp := 43199999, type := .breakStart,
             method := .fingerprint, deviceId := "ZK001" } ∧
    hoursOf 43199999 = 11 := by
  constructor
  · rfl
  · rfl

/-- C6 amended: the event kind is computed from clock-hour thresholds applied
to the wall-clock hour at the moment of classification (a clock read distinct
from the one stored in the record), with hour < 12 giving check-in, hour > 17
giving check-out and break-start otherwise; the parsed notification is ignored
entirely, so a device-reported flag never takes precedence; any well-formed
(length ≥ 8) notification classified at clock hour 8 — e.g. the 08:30 AM
fingerprint scenario — yields a check-in record. -/
theorem attendance_type_from_clock_thresholds_only
    (d₁ d₂ : ParsedData) (now : Nat) (dev : String)
    (b₀ b₁ b₂ b₃ b₄ b₅ b₆ b₇ : Nat) (bs : List Nat) (tp : Nat) :
    determineAttendanceType d₁ now = determineAttendanceType d₂ now ∧
    determineAttendanceType d₁ now =
      (if hoursOf now < 12 then .checkIn
       else if hoursOf now > 17 then .checkOut
       else .breakStart) ∧
    handleDeviceData dev (b₀ :: b₁ :: b₂ :: b₃ :: b₄ :: b₅ :: b₆ :: b₇ :: bs)
        tp 30600000 =
      some { userId := "12345", timestamp := tp, type := .checkIn,
             method := .fingerprint, deviceId := dev } := by
  refine ⟨rfl, rfl, ?_⟩
  simp only [handleDeviceData, parseZKData, List.length_cons]
  rw [if_neg (by omega)]
  simp [determineAttendanceType, hoursOf]

/-! ### Claim C1 and C8 theorems -/

/-- Helper: every notification reaching the listener costs exactly one
createAttendanceRecord call, success or not. -/
theorem attendanceListenerRun_attempts (employees devices : List (String × String))
    (persistOk : DbAttendanceRecord → Bool) (rs : List AttendanceRecord) :
    (attendanceListenerRun employees devices persistOk rs).persistAttempts =
      rs.length := by
  induction rs with
  | nil => rfl
  | cons r rs ih =>
    by_cases h : persistOk (buildDbRecord employees devices r) <;>
      simp [attendanceListenerRun, attendanceListenerStep, combineResults, h, ih] <;>
      omega

/-- C1 counterexample: two notifications for the same subject EMP001 on the
same device ZK001 just 10 seconds apart (well inside the 60-second window) are
each persisted and each broadcast by the live listener — two
createAttendanceRecord calls and two attendance broadcasts, with nothing
counted as a duplicate, contradicting the claimed exactly-once behaviour. -/
theorem duplicate_pair_persisted_twice_broadcast_twice :
    (attendanceListenerRun [("EMP001", "Sarah Johnson")] [("ZK001", "10.0.0.5")]
        (fun _ => true)
        [{ userId := "EMP001", timestamp := 1000, type := .checkIn,
           method := .fingerprint, deviceId := "ZK001" },
         { userId := "EMP001", timestamp := 11000, type := .checkIn,
           method := .fingerprint, deviceId := "ZK001" }]).persisted.length = 2 ∧
    (attendanceListenerRun [("EMP001", "Sarah Johnson")] [("ZK001", "10.0.0.5")]
        (fun _ => true)
        [{ userId := "EMP001", timestamp := 1000, type := .checkIn,
           method := .fingerprint, deviceId := "ZK001" },
         { userId := "EMP001", timestamp := 11000, type := .checkIn,
           method := .fingerprint, deviceId := "ZK001" }]).broadcastRecords.length
      = 2 := by
  constructor <;> rfl

/-- C1 amended: the live ingestion path applies no dedupe whatsoever — with a
succeeding store, every incoming notification is persisted exactly once and
broadcast exactly once, duplicates included.  A 60-second duplicate check
exists only on the file-import path, and there it degenerates to an
exact-timestamp test: the candidate is compared only against records returned
by a query whose start and end date both equal the candidate's own timestamp,
so a record counts as a duplicate precisely when the store already holds a
record with the same employeeId and the identical timestamp (deviceId is not
consulted, and a record 10 s away is not caught). -/
theorem live_ingest_no_dedupe_import_dedupe_exact
    (employees devices : List (String × String)) (rs : List AttendanceRecord)
    (db : List ImportRecord) (a : ImportRecord) :
    (attendanceListenerRun employees devices (fun _ => true) rs).persisted =
      rs.map (buildDbRecord employees devices) ∧
    (attendanceListenerRun employees devices (fun _ => true) rs).broadcastRecords =
      rs.map (buildDbRecord employees devices) ∧
    isDuplicateImport db a =
      db.any (fun r =>
        r.employeeId == a.employeeId && r.timestamp == a.timestamp) := by
  refine ⟨?_, ?_, ?_⟩
  · induction rs with
    | nil => rfl
    | cons r rs ih =>
      simp [attendanceListenerRun, attendanceListenerStep, combineResults, ih]
  · induction rs with
    | nil => rfl
    | cons r rs ih =>
      simp [attendanceListenerRun, attendanceListenerStep, combineResults, ih]
  · rw [Bool.eq_iff_iff]
    simp only [isDuplicateImport, existingFor, List.any_eq_true,
      List.mem_filter, Bool.and_eq_true, decide_eq_true_eq, beq_iff_eq,
      natDist]
    constructor
    · rintro ⟨x, ⟨hx, ⟨he, h1⟩, h2⟩, h3⟩
      exact ⟨x, hx, he, by omega⟩
    · rintro ⟨x, hx, he, ht⟩
      exact ⟨x, ⟨hx, ⟨he, by omega⟩, by omega⟩, by omega⟩

/-- C8 counterexample: when createAttendanceRecord fails on a notification, the
listener's catch block is the entire failure handling — the persist is
attempted exactly once (no retry, no backoff), nothing is broadcast, no
system_alert is published, and the only trace is one logged error. -/
theorem persist_failure_no_retry_no_alert :
    attendanceListenerStep [("EMP001", "Sarah Johnson")] [("ZK001", "10.0.0.5")]
        (fun _ => false)
        { userId := "EMP001", timestamp := 1000, type := .checkIn,
          method := .fingerprint, deviceId := "ZK001" } =
      { persistAttempts := 1, persisted := [], broadcastRecords := [],
        systemAlerts := 0, errorsLogged := 1 } := by
  rfl

/-- C8 amended: on persistence failure the event is dropped after a single
createAttendanceRecord attempt — there is no retry, no backoff and no
system_alert broadcast; the failure is logged (so the event is not silently
lost without a trace), and every subsequent notification on the stream is
still given its own persistence attempt. -/
theorem persistence_failure_single_attempt_logged_dropped
    (employees devices : List (String × String))
    (persistOk : DbAttendanceRecord → Bool) (r : AttendanceRecord)
    (rs : List AttendanceRecord)
    (hfail : persistOk (buildDbRecord employees devices r) = false) :
    attendanceListenerStep employees devices persistOk r =
      { persistAttempts := 1, persisted := [], broadcastRecords := [],
        systemAlerts := 0, errorsLogged := 1 } ∧
    (attendanceListenerRun employees devices persistOk (r :: rs)).persistAttempts
      = 1 + rs.length := by
  constructor
  · simp [attendanceListenerStep, hfail]
  · have h := attendanceListenerRun_attempts employees devices persistOk (r :: rs)
    rw [h, List.length_cons]
    omega

theorem persistence_failure_single_attempt_logged_dropped_witness :
    attendanceListenerStep [] [] (fun _ => false)
        { userId := "EMP002", timestamp := 5000, type := .checkOut,
          method := .card, deviceId := "MB2000" } =
      { persistAttempts := 1, persisted := [], broadcastRecords := [],
        systemAlerts := 0, errorsLogged := 1 } ∧
    (attendanceListenerRun [] [] (fun _ => false)
        [{ userId := "EMP002", timestamp := 5000, type := .checkOut,
           method := .card, deviceId := "MB2000" },
         { userId := "EMP003", timestamp := 6000, type := .checkOut,
           method := .card, deviceId := "MB2000" }]).persistAttempts = 1 + 1 :=
  persistence_failure_single_attempt_logged_dropped [] [] (fun _ => false)
    { userId := "EMP002", timestamp := 5000, type := .checkOut,
      method := .card, deviceId := "MB2000" }
    [{ userId := "EMP003", timestamp := 6000, type := .checkOut,
       method := .card, deviceId := "MB2000" }] rfl

/-! ### Helper lemmas for the registry model -/

/-- Map.set never duplicates a key: it keeps the key set intact when the key
exists and appends a genuinely fresh key otherwise. -/
theorem mapSet_keys_nodup {α : Type} (m : List (String × α)) (k : String)
    (v : α) (h : (m.map Prod.fst).Nodup) :
    ((mapSet m k v).map Prod.fst).Nodup := by
  unfold mapSet
  by_cases hk : m.any (fun p => p.1 == k)
  · rw [if_pos hk, List.map_map]
    have hfun : ∀ p ∈ m,
        (Prod.fst ∘ fun p : String × α => if p.1 == k then (k, v) else p) p =
          Prod.fst p := by
      intro p hp
      by_cases hpk : p.1 = k
      · subst hpk; simp
      · simp [hpk]
    rw [List.map_congr_left hfun]
    exact h
  · rw [if_neg hk, List.map_append]
    simp only [List.map_cons, List.map_nil]
    rw [List.nodup_append]
    refine ⟨h, List.nodup_singleton k, ?_⟩
    intro x hx hxk
    rw [List.mem_singleton] at hxk
    rcases List.mem_map.mp hx with ⟨p, hp, hpx⟩
    simp only [List.any_eq_true, not_exists, not_and] at hk
    have hne : p.1 ≠ k := by simpa using hk p hp
    exact hne (hpx.trans hxk)

/-- Map.delete only removes entries, so it cannot create a duplicate key. -/
theorem mapDelete_keys_nodup {α : Type} (m : List (String × α)) (k : String)
    (h : (m.map Prod.fst).Nodup) :
    ((mapDelete m k).map Prod.fst).Nodup :=
  ((List.filter_sublist m).map Prod.fst).nodup h

/-- After Map.delete k, a Map.get k finds nothing. -/
theorem mapGet_mapDelete {α : Type} (m : List (String × α)) (k : String) :
    mapGet (mapDelete m k) k = none := by
  unfold mapGet mapDelete
  have hfind : List.find? (fun p => p.1 == k)
      (List.filter (fun p => p.1 != k) m) = none := by
    rw [List.find?_eq_none]
    intro x hx
    rcases List.mem_filter.mp hx with ⟨hxm, hxk⟩
    simp only [bne_iff_ne, ne_eq] at hxk
    simp [hxk]
  rw [hfind]
  rfl

/-- disconnect only destroys sockets; the connections Map is untouched (the
entry disappears later, in the close handler). -/
theorem disconnectDevice_connections (s : ServiceState) (id : String) :
    (disconnectDevice s id).connections = s.connections := by
  unfold disconnectDevice
  cases mapGet s.connections id with
  | none => rfl
  | some sid =>
    by_cases hl : (sid, id) ∈ s.live <;> simp [hl]

/-- disconnect() (all devices) is a fold of single-device destroys, so it too
leaves the connections Map untouched. -/
theorem foldl_disconnectDevice_connections (l : List String) :
    ∀ s : ServiceState, (l.foldl disconnectDevice s).connections =
      s.connections := by
  induction l with
  | nil => intro s; rfl
  | cons x l ih =>
    intro s
    rw [List.foldl_cons, ih, disconnectDevice_connections]

/-- Every transition preserves key-uniqueness of the connections Map. -/
theorem step_keys_nodup (s : ServiceState) (a : Act)
    (h : (s.connections.map Prod.fst).Nodup) :
    (((step s a).connections).map Prod.fst).Nodup := by
  cases a with
  | addDevice id => exact h
  | connectOk id =>
    by_cases hd : (mapGet s.devices id).isSome
    · simpa [step, hd] using mapSet_keys_nodup s.connections id s.nextSocketId h
    · simpa [step, hd] using h
  | connectFail id =>
    by_cases hd : (mapGet s.devices id).isSome <;> simpa [step, hd] using h
  | cmdStart id caller =>
    by_cases hc : (mapGet s.connections id).isSome ∧ (id, caller) ∉ s.pending <;>
      simpa [step, hc] using h
  | socketClose id sid =>
    by_cases hc : (sid, id) ∈ s.live ∨ (sid, id) ∈ s.destroyed
    · simpa [step, hc] using mapDelete_keys_nodup s.connections id h
    · simpa [step, hc] using h
  | reconnectFire id =>
    by_cases ht : id ∈ s.reconnectTimers <;> simpa [step, ht] using h
  | disconnectOne id =>
    simpa [step, disconnectDevice_connections] using h
  | disconnectAll =>
    simpa [step, foldl_disconnectDevice_connections] using h

/-- Helper: the once-listener keeps the first frame it saw. -/
theorem onceFirst_keeps_first (rest : List (List Nat)) (r : List Nat) :
    rest.foldl
        (fun acc f =>
          match acc with
          | some x => some x
          | none => some f)
        (some r) = some r := by
  induction rest with
  | nil => rfl
  | cons a l ih => simpa using ih

/-! ### Claim C2 theorems -/

/-- C2 counterexample: addDevice is a public, unguarded route and
connectToDevice installs its fresh socket with Map.set without destroying any
previous one, so registering/connecting the same device twice (two POSTs of
the same config, or a stale reconnect timer racing a manual connect) leaves
two established sockets for ZK001 at once — the older one still live, merely
evicted from the Map. -/
theorem two_live_sockets_for_one_device :
    liveCount (runActs [.addDevice "ZK001", .connectOk "ZK001",
      .addDevice "ZK001", .connectOk "ZK001"]) "ZK001" = 2 := by
  rfl

/-- C2 amended: the connections Map itself never holds two sockets for one
device id — Map.set replaces and Map.delete removes, so key-uniqueness is an
invariant of every reachable state; but this does not bound live sockets: a
second connect evicts the previous socket from the Map without closing it, so
two live connections for one device are reachable. -/
theorem connections_map_at_most_one_entry_per_device (acts : List Act) :
    ((runActs acts).connections.map Prod.fst).Nodup := by
  suffices h : ∀ s : ServiceState, (s.connections.map Prod.fst).Nodup →
      ((acts.foldl step s).connections.map Prod.fst).Nodup by
    exact h initState (by simp [initState])
  induction acts with
  | nil => intro s hs; exact hs
  | cons a acts ih =>
    intro s hs
    exact ih (step s a) (step_keys_nodup s a hs)

/-! ### Claim C3 theorems -/

/-- C3 counterexample: sendCommand writes the caller's bytes unchanged (the
written buffer is exactly the command — no fresh correlation id is allocated
or framed in) and settles with the first data event the socket delivers; here
that event is a frame that parseZKData itself classifies as an unsolicited
attendance notification, and sendCommand hands it to the caller as the
command's response. -/
theorem notification_delivered_as_command_response :
    sendCommand true [13, 0] [[0, 0, 0, 0, 0, 0, 0, 0]] =
      { written := some [13, 0], result := .ok [0, 0, 0, 0, 0, 0, 0, 0] } ∧
    parseZKData [0, 0, 0, 0, 0, 0, 0, 0] 0 =
      .ok { dtype := "attendance", userId := "12345", timestamp := 0,
            method := .fingerprint, verifyMode := 1 } := by
  constructor <;> rfl

/-- C3 amended: on a device with no connection sendCommand fails immediately
with deviceNotConnected; on a connected device it writes the caller's command
buffer unchanged (no correlation id is allocated) and settles with the first
data frame the socket delivers before the 5-second timer — whatever that frame
is — or fails with commandTimeout when no frame arrives in time. -/
theorem sendCommand_first_frame_or_timeout
    (command : List Nat) (frames : List (List Nat)) (f : List Nat)
    (rest : List (List Nat)) :
    sendCommand false command frames =
      { written := none, result := .error .deviceNotConnected } ∧
    sendCommand true command [] =
      { written := some command, result := .error .commandTimeout } ∧
    sendCommand true command (f :: rest) =
      { written := some command, result := .ok f } := by
  refine ⟨rfl, rfl, ?_⟩
  have hf : onceFirst (f :: rest) = some f := by
    unfold onceFirst
    rw [List.foldl_cons]
    exact onceFirst_keeps_first rest f
  simp [sendCommand, hf]

/-! ### Claim C4 theorems -/

/-- C4 counterexample: with one command pending on ZK001, the close event for
its socket runs the entire close handler — the device is marked disconnected,
the Map entry removed, deviceDisconnected emitted — yet the pending caller is
exactly as pending afterwards as before: nothing rejects it with
SessionClosed, and with the socket closed no data can arrive, so it is left to
settle with its own 5-second commandTimeout. -/
theorem pending_command_survives_close :
    (runActs [.addDevice "ZK001", .connectOk "ZK001",
        .cmdStart "ZK001" 1]).pending = [("ZK001", 1)] ∧
    (runActs [.addDevice "ZK001", .connectOk "ZK001", .cmdStart "ZK001" 1,
        .socketClose "ZK001" 0]).pending = [("ZK001", 1)] ∧
    (runActs [.addDevice "ZK001", .connectOk "ZK001", .cmdStart "ZK001" 1,
        .socketClose "ZK001" 0]).events =
      [.deviceConnected "ZK001", .deviceDisconnected "ZK001"] ∧
    sendCommand true [13, 0] [] =
      { written := some [13, 0], result := .error .commandTimeout } := by
  refine ⟨rfl, rfl, rfl, rfl⟩

/-- C4 amended: when a device's connection closes, the handler emits exactly
one deviceDisconnected event and removes the connections entry, but it fails
no pending command: the pending set is untouched, and each still-pending
caller later fails with its own 5-second commandTimeout (no SessionClosed
mechanism exists). -/
theorem close_emits_disconnect_keeps_pending
    (s : ServiceState) (id : String) (sid : Nat)
    (h : (sid, id) ∈ s.live ∨ (sid, id) ∈ s.destroyed) :
    (step s (.socketClose id sid)).pending = s.pending ∧
    (step s (.socketClose id sid)).events =
      s.events ++ [.deviceDisconnected id] ∧
    mapGet (step s (.socketClose id sid)).connections id = none ∧
    ∀ cmd, sendCommand true cmd [] =
      { written := some cmd, result := .error .commandTimeout } := by
  refine ⟨by simp [step, h], by simp [step, h], ?_, fun cmd => rfl⟩
  simp only [step, if_pos h]
  exact mapGet_mapDelete s.connections id

theorem close_emits_disconnect_keeps_pending_witness :
    ((step (runActs [.addDevice "ZK001", .connectOk "ZK001",
          .cmdStart "ZK001" 7]) (.socketClose "ZK001" 0)).pending =
        (runActs [.addDevice "ZK001", .connectOk "ZK001",
          .cmdStart "ZK001" 7]).pending) ∧
    ((step (runActs [.addDevice "ZK001", .connectOk "ZK001",
          .cmdStart "ZK001" 7]) (.socketClose "ZK001" 0)).events =
        (runActs [.addDevice "ZK001", .connectOk "ZK001",
          .cmdStart "ZK001" 7]).events ++ [.deviceDisconnected "ZK001"]) ∧
    mapGet (step (runActs [.addDevice "ZK001", .connectOk "ZK001",
        .cmdStart "ZK001" 7]) (.socketClose "ZK001" 0)).connections "ZK001" =
      none ∧
    ∀ cmd, sendCommand true cmd [] =
      { written := some cmd, result := .error .commandTimeout } :=
  close_emits_disconnect_keeps_pending
    (runActs [.addDevice "ZK001", .connectOk "ZK001", .cmdStart "ZK001" 7])
    "ZK001" 0 (by decide)

/-! ### Claim C5 theorems -/

/-- C5 counterexample: an explicit disconnect destroys the socket, which fires
the very same close handler used for unexpected loss — and that handler
unconditionally schedules a 5-second reconnect; so after disconnect(ZK001) the
service has a reconnect timer armed for ZK001. -/
theorem reconnect_scheduled_after_explicit_disconnect :
    (runActs [.addDevice "ZK001", .connectOk "ZK001", .disconnectOne "ZK001",
        .socketClose "ZK001" 0]).reconnectTimers = ["ZK001"] := by
  rfl

/-- C5 amended: disconnect is idempotent — destroying an already-destroyed
socket changes nothing — but it does trigger the reconnect policy: the close
event that the destroy provokes always schedules a reconnect timer, because
the close handler cannot distinguish explicit disconnect from unexpected
loss. -/
theorem disconnect_idempotent_but_schedules_reconnect
    (s : ServiceState) (id : String) (sid : Nat)
    (hconn : mapGet s.connections id = some sid)
    (hlive : (sid, id) ∈ s.live) :
    step (step s (.disconnectOne id)) (.disconnectOne id) =
      step s (.disconnectOne id) ∧
    id ∈ (step (step s (.disconnectOne id))
      (.socketClose id sid)).reconnectTimers := by
  have hs1 : step s (.disconnectOne id) =
      { s with live := s.live.filter (fun p => p ≠ (sid, id)),
               destroyed := s.destroyed ++ [(sid, id)] } := by
    simp [step, disconnectDevice, hconn, hlive]
  have hnotlive : (sid, id) ∉ s.live.filter (fun p => p ≠ (sid, id)) := by
    intro hmem
    rcases List.mem_filter.mp hmem with ⟨_, hne⟩
    simp at hne
  constructor
  · rw [hs1]
    simp only [step, disconnectDevice]
    rw [show (mapGet s.connections id) = some sid from hconn]
    simp [hnotlive]
  · rw [hs1]
    simp only [step]
    rw [if_pos (Or.inr (by simp))]
    simp

theorem disconnect_idempotent_but_schedules_reconnect_witness :
    (step (step (runActs [.addDevice "ZK001", .connectOk "ZK001"])
          (.disconnectOne "ZK001")) (.disconnectOne "ZK001") =
        step (runActs [.addDevice "ZK001", .connectOk "ZK001"])
          (.disconnectOne "ZK001")) ∧
    "ZK001" ∈ (step (step (runActs [.addDevice "ZK001", .connectOk "ZK001"])
        (.disconnectOne "ZK001")) (.socketClose "ZK001" 0)).reconnectTimers :=
  disconnect_idempotent_but_schedules_reconnect
    (runActs [.addDevice "ZK001", .connectOk "ZK001"]) "ZK001" 0
    (by decide) (by decide)

/-! ### Claim C9 theorem -/

/-- C9: broadcast sends the serialized message to exactly the registered
clients whose connection is OPEN, and the surviving subscriber set after the
call consists of exactly those OPEN clients — every non-OPEN client is removed
during the call; the function is total, so no subscriber state can surface an
error to the publisher. -/
theorem broadcast_sends_to_exactly_open_and_prunes
    (msg : String) (clients : List Client) :
    (broadcast msg clients).1 =
      (clients.filter (fun c => c.readyState == .OPEN)).map
        (fun c => (c.cid, msg)) ∧
    (broadcast msg clients).2 =
      clients.filter (fun c => c.readyState == .OPEN) := by
  induction clients with
  | nil => exact ⟨rfl, rfl⟩
  | cons c rest ih =>
    by_cases h : c.readyState = .OPEN <;>
      simp [broadcast, List.filter_cons, h, ih.1, ih.2]

end ZKTeco
